import Mathlib

/-!
A shallow embedding of the `blktrace_to_influx` decoder
(`blktrace_api.py`, `cli.py`, `global_state.py`).

Modelling conventions:
* a byte stream is a `List Nat` of byte values (each `< 256`); `f.read(n)`
  returns up to `n` bytes, i.e. `List.take n` with the remainder `List.drop n`;
* Python `struct` signed fields (`i`, `l`, `h`) are decoded little-endian and
  reinterpreted as signed integers (`toSigned`);
* Python `int` is `Int`; `v & mask` on a signed value with a non-negative
  mask below `2^32` is `pyAnd`;
* Python exceptions become `Except` error values; the `None` that
  `blktrace_api.fetch_blkparse_record` returns on a short or empty header
  read is the `FetchResult.none` constructor;
* process names are kept as their UTF-8 byte sequences (`List Nat`); the
  `.decode("utf_8")` step is the identity on those bytes.
-/

namespace BlktraceToInflux

/-- Little-endian interpretation of a byte list as an unsigned natural. -/
def bytesToNatLE : List Nat → Nat
  | [] => 0
  | b :: bs => b + 256 * bytesToNatLE bs

/-- Reinterpret an unsigned `w`-bit value as a signed integer
(twos-complement), as Python `struct` does for `i`, `l`, `h` fields. -/
def toSigned (w : Nat) (n : Nat) : Int :=
  if n < 2 ^ (w - 1) then (n : Int) else (n : Int) - 2 ^ w

/-- The `len`-byte little-endian field of `buf` starting at offset `off`. -/
def sliceLE (buf : List Nat) (off len : Nat) : Nat :=
  bytesToNatLE ((buf.drop off).take len)

/-- Python `v & mask` for a signed `v` and a non-negative `mask < 2^32`
(twos-complement bitwise and, as Python defines `&` on `int`). -/
def pyAnd (v : Int) (mask : Nat) : Int :=
  (((v % (2 ^ 32 : Int)).toNat &&& mask : Nat) : Int)

/-- The `ValueError` raised by `BlkparseRecord.verify_trace`, carrying the
observed and the expected value (magic upper bits, or version low byte). -/
inductive FormatError where
  | badMagic (found expected : Int)
  | badVersion (found expected : Int)
deriving DecidableEq, Repr

/-- The eleven header fields unpacked by `struct.Struct("iilliiiiihh")`
(native little-endian layout on a 64-bit host: offsets 0,4,8,16,24,28,32,36,40,44,46). -/
structure Header where
  magic : Int
  sequence : Int
  time : Int
  sector : Int
  bytes : Int
  action : Int
  pid : Int
  device : Int
  cpu : Int
  error : Int
  pdu_len : Int
deriving DecidableEq, Repr

/-- `struct.Struct("iilliiiiihh").unpack` on a 48-byte buffer. -/
def unpack48 (buf : List Nat) : Header :=
  { magic := toSigned 32 (sliceLE buf 0 4)
    sequence := toSigned 32 (sliceLE buf 4 4)
    time := toSigned 64 (sliceLE buf 8 8)
    sector := toSigned 64 (sliceLE buf 16 8)
    bytes := toSigned 32 (sliceLE buf 24 4)
    action := toSigned 32 (sliceLE buf 28 4)
    pid := toSigned 32 (sliceLE buf 32 4)
    device := toSigned 32 (sliceLE buf 36 4)
    cpu := toSigned 32 (sliceLE buf 40 4)
    error := toSigned 16 (sliceLE buf 44 2)
    pdu_len := toSigned 16 (sliceLE buf 46 2) }

/-- The dataclass `BlkparseRecord`: the eleven header fields plus the
optional payload `pdu_data`. -/
structure BlkparseRecord where
  magic : Int
  sequence : Int
  time : Int
  sector : Int
  bytes : Int
  action : Int
  pid : Int
  device : Int
  cpu : Int
  error : Int
  pdu_len : Int
  pdu_data : Option (List Nat)
deriving DecidableEq, Repr

/-- `BlkparseRecord.verify_trace`: check `magic & 0xffffff00 == 0x65617400`
then `magic & 0xff == 7`, raising `ValueError` (here: `FormatError`) with the
found and expected values on the first failing check, else return `True`. -/
def verify_trace (magic : Int) : Except FormatError Bool :=
  let m := pyAnd magic 0xffffff00
  if m ≠ 0x65617400 then
    .error (.badMagic m 0x65617400)
  else
    let version := pyAnd magic 0x000000ff
    if version ≠ 7 then
      .error (.badVersion version 7)
    else
      .ok true

/-- Construction of a `BlkparseRecord`: the frozen dataclass and its
`__post_init__` runs `verify_trace`, so a record only comes into existence
when the magic and version checks pass. -/
def mkBlkparseRecord (u : Header) (pdu_data : Option (List Nat)) :
    Except FormatError BlkparseRecord :=
  match verify_trace u.magic with
  | .error e => .error e
  | .ok _ =>
      .ok { magic := u.magic, sequence := u.sequence, time := u.time
            sector := u.sector, bytes := u.bytes, action := u.action
            pid := u.pid, device := u.device, cpu := u.cpu
            error := u.error, pdu_len := u.pdu_len, pdu_data := pdu_data }

/-- Result of `blktrace_api.fetch_blkparse_record`: the Python `None`
(returned both at end of stream and when the header read is short, because
`struct.error` is caught), a propagating `ValueError` from `verify_trace`,
or a record. -/
inductive FetchResult where
  | none
  | formatError (e : FormatError)
  | ok (r : BlkparseRecord)
deriving DecidableEq, Repr

/-- `blktrace_api.fetch_blkparse_record`: read 48 header bytes (a short or
empty read makes `unpack` raise `struct.error`, which is caught and turned
into `None`); if the unpacked `pdu_len` is positive, read up to that many
payload bytes (no length check on the result); construct the record
(its validation may raise `FormatError`). -/
def fetch_blkparse_record (s : List Nat) : FetchResult :=
  let buf := s.take 48
  if buf.length ≠ 48 then
    .none
  else
    let u := unpack48 buf
    let rest := s.drop 48
    let pdu_data : Option (List Nat) :=
      if 0 < u.pdu_len then some (rest.take u.pdu_len.toNat) else none
    match mkBlkparseRecord u pdu_data with
    | .error e => .formatError e
    | .ok r => .ok r

/-- `BlkparseRecord.as_timepair`: Python `divmod(self.time, 1000000000)`,
i.e. floor division and the matching remainder. -/
def as_timepair (r : BlkparseRecord) : Int × Int :=
  (Int.fdiv r.time 1000000000, Int.fmod r.time 1000000000)

/-- The value of the `TraceCategory.NOTIFY` flag (bit 26). -/
def NOTIFY : Nat := 1 <<< 26

/-- The member values of the Python enum `TraceNotify`:
`PROCESS = 0`, `TIMESTAMP = 1`, `MESSAGE = 2`. -/
def traceNotifyCodes : List Nat := [0, 1, 2]

/-- The member values of the Python enum `_TraceAction`: `NONE = 0`,
`QUEUE = 1` through `DRV_DATA = 17` (consecutive `auto()` values), and
`CGROUP = 1 <<< 8 = 256`. -/
def traceActionCodes : List Nat :=
  [0, 1, 2, 3, 4, 5, 6, 7, 8, 9, 10, 11, 12, 13, 14, 15, 16, 17, 256]

/-- The subtype returned by `classify`: a member of `TraceNotify` or of
`_TraceAction`, identified by its enum value. -/
inductive TraceSubtype where
  | notify (code : Nat)
  | ordinary (code : Nat)
deriving DecidableEq, Repr

/-- The `ValueError` raised by `TraceNotify(...)` or `_TraceAction(...)`
when the looked-up value is not a member of the enum. -/
inductive ClassifyError where
  | badNotify (code : Nat)
  | badAction (code : Nat)
deriving DecidableEq, Repr

/-- The subtype lookup inside `blktrace_api.classify`: the code `sub` is
looked up in `TraceNotify` when the category bits `tc` equal
`TraceCategory.NOTIFY` exactly (Python `tc == TraceCategory.NOTIFY` on a
`Flag` is equality, not membership), and in `_TraceAction` otherwise. -/
def lookup_subtype (tc sub : Nat) : Except ClassifyError TraceSubtype :=
  if tc = NOTIFY then
    if sub ∈ traceNotifyCodes then .ok (.notify sub)
    else .error (.badNotify sub)
  else
    if sub ∈ traceActionCodes then .ok (.ordinary sub)
    else .error (.badAction sub)

/-- `blktrace_api.classify`: split `value` into the category bits
`value & 0xffff0000` (always a valid `TraceCategory` flag combination,
since every bit 16..31 is a member), the subtype code `value & 0x0000ff7f`
fed to `lookup_subtype`, and the cgroup field `value & 0x00000080`. -/
def classify (value : Nat) : Except ClassifyError (Nat × TraceSubtype × Nat) :=
  let tc := value &&& 0xffff0000
  let sub := value &&& 0x0000ff7f
  let cg := value &&& 0x00000080
  (lookup_subtype tc sub).map (fun tr => (tc, tr, cg))

/-- Python `bytes.find(b"\0")`: index of the first zero byte, `-1` if none. -/
def bytesFind0 (bs : List Nat) : Int :=
  match bs.findIdx? (· = 0) with
  | some i => (i : Int)
  | none => -1

/-- Python slice `bs[0:stop]` for an `int` stop: a negative stop counts
from the end of the sequence, and the result is clamped to the sequence. -/
def pySliceTo (bs : List Nat) (stop : Int) : List Nat :=
  let s : Int := if stop < 0 then stop + bs.length else stop
  bs.take s.toNat

/-- `GlobalState.add_program`: `offset = pdu_data.find(b"\0")`; when
`offset` is truthy (any non-zero `int`, including the `-1` of a failed
find) the name is the slice `pdu_data[0:offset]`, otherwise the whole
payload; store it in the pid-to-name table `ppm` under `r.pid`.
Names are kept as their UTF-8 bytes; the table is a lookup function. -/
def add_program (ppm : Int → Option (List Nat)) (pid : Int)
    (pdu_data : List Nat) : Int → Option (List Nat) :=
  let offset := bytesFind0 pdu_data
  let program := if offset ≠ 0 then pySliceTo pdu_data offset else pdu_data
  fun p => if p = pid then some program else ppm p

/-- The `MalformedPayloadError` of the spec NOTIFY error taxonomy. -/
inductive NotifyError where
  | malformedPayload (pdu_len : Int)
deriving DecidableEq, Repr

/-- The timestamp anchor of `GlobalState`: `start_timestamp` and
`abs_timestamp`, both `(seconds, nanoseconds)` pairs, initialized
to `(0, 0)` in `GlobalState.__init__`. -/
structure TimestampAnchor where
  start_timestamp : Int × Int
  abs_timestamp : Int × Int
deriving DecidableEq, Repr

/-- `GlobalState.__init__` defaults for the anchor. -/
def initAnchor : TimestampAnchor :=
  { start_timestamp := (0, 0), abs_timestamp := (0, 0) }

/-- Modelled from the spec: the TIMESTAMP notify handler is not present in
the source tree (only the `GlobalState.__init__` defaults are); per the
spec it requires `record.pdu_len == 8` exactly (else
`MalformedPayloadError`), sets `anchor.start = divmod(record.time,
1_000_000_000)`, parses the 8-byte payload as two little-endian signed
32-bit integers `(seconds, nanoseconds)`, normalizes a negative
nanoseconds by `seconds -= 1; nanoseconds += 1_000_000_000`, and sets
`anchor.absolute` to the resulting pair. -/
def handle_timestamp (anchor : TimestampAnchor) (time pdu_len : Int)
    (payload : List Nat) : Except NotifyError TimestampAnchor :=
  if pdu_len ≠ 8 then
    .error (.malformedPayload pdu_len)
  else
    let seconds := toSigned 32 (sliceLE payload 0 4)
    let nanoseconds := toSigned 32 (sliceLE payload 4 4)
    let pair :=
      if nanoseconds < 0 then (seconds - 1, nanoseconds + 1000000000)
      else (seconds, nanoseconds)
    .ok { anchor with
          start_timestamp := (Int.fdiv time 1000000000, Int.fmod time 1000000000)
          abs_timestamp := pair }

/-! Helper lemmas shared by the claim theorems. -/

/-- Masking is unchanged by an or with bits disjoint from the mask. -/
theorem or_and_of_and_eq_zero (v c m : Nat) (h : c &&& m = 0) :
    (v ||| c) &&& m = v &&& m := by
  apply Nat.eq_of_testBit_eq
  intro i
  have hc : (c.testBit i && m.testBit i) = false := by
    have h2 := congrArg (fun n => n.testBit i) h
    simp only [Nat.testBit_and, Nat.zero_testBit] at h2
    exact h2
  simp only [Nat.testBit_and, Nat.testBit_or]
  cases hcc : c.testBit i with
  | false => simp
  | true =>
      rw [hcc, Bool.true_and] at hc
      rw [hc]
      simp

/-- Masking by the bits just set by an or yields those bits. -/
theorem or_and_self_right (v c : Nat) : (v ||| c) &&& c = c := by
  apply Nat.eq_of_testBit_eq
  intro i
  simp only [Nat.testBit_and, Nat.testBit_or]
  cases hcc : c.testBit i <;> simp

/-- `verify_trace` can only succeed with the value `true`. -/
theorem verify_trace_ok (m : Int) (b : Bool) (h : verify_trace m = .ok b) :
    b = true := by
  simp only [verify_trace] at h
  split_ifs at h
  all_goals simp_all

/-- What a successfully fetched record looks like: its header fields come
from `unpack48` of the first 48 bytes, its payload is the clamped
`pdu_len`-byte read when `pdu_len` is positive, and its magic passed
`verify_trace`. -/
theorem fetch_ok_inv (s : List Nat) (r : BlkparseRecord)
    (h : fetch_blkparse_record s = FetchResult.ok r) :
    r.pdu_len = (unpack48 (s.take 48)).pdu_len ∧
    r.pdu_data = (if 0 < (unpack48 (s.take 48)).pdu_len then
        some ((s.drop 48).take (unpack48 (s.take 48)).pdu_len.toNat)
      else none) ∧
    r.magic = (unpack48 (s.take 48)).magic ∧
    verify_trace r.magic = .ok true := by
  simp only [fetch_blkparse_record] at h
  by_cases hl : (s.take 48).length = 48
  · rw [if_neg (not_not_intro hl)] at h
    generalize hu : unpack48 (s.take 48) = u at h ⊢
    cases hmk : mkBlkparseRecord u
        (if 0 < u.pdu_len then
          some ((s.drop 48).take u.pdu_len.toNat)
        else none) with
    | error e => rw [hmk] at h; simp at h
    | ok r2 =>
        rw [hmk] at h
        have hr : r2 = r := by
          simpa using h
        subst hr
        unfold mkBlkparseRecord at hmk
        cases hv : verify_trace u.magic with
        | error e => rw [hv] at hmk; simp at hmk
        | ok b =>
            rw [hv] at hmk
            have hrec : (⟨u.magic, u.sequence, u.time, u.sector, u.bytes,
                u.action, u.pid, u.device, u.cpu, u.error, u.pdu_len,
                if 0 < u.pdu_len then
                  some ((s.drop 48).take u.pdu_len.toNat)
                else none⟩ : BlkparseRecord) = r2 := by
              simpa using hmk
            subst hrec
            exact ⟨rfl, rfl, rfl, by rw [verify_trace_ok _ _ hv] at hv; exact hv⟩
  · rw [if_pos hl] at h
    simp at h

/-! Claim theorems. -/

/-- C1, counterexample: a four-byte stream (a header truncated at a record
boundary) makes `fetch_blkparse_record` return `FetchResult.none` — exactly
the result it returns for the empty stream — rather than a distinct
truncation error, because the `struct.error` of the short `unpack` is
caught and turned into `None`. -/
theorem c1_counterexample :
    fetch_blkparse_record [0, 0, 0, 0] = FetchResult.none ∧
    fetch_blkparse_record [] = FetchResult.none := by
  exact ⟨rfl, rfl⟩

/-- C1, amended: for every stream holding fewer than 48 bytes — zero bytes
or a partial header alike — `fetch_blkparse_record` returns the single
normal-termination result `FetchResult.none`; truncation at a record
boundary is silently swallowed into the same result as end-of-stream. -/
theorem c1_amended (s : List Nat) (h : s.length < 48) :
    fetch_blkparse_record s = FetchResult.none := by
  have hl : (s.take 48).length ≠ 48 := by
    simp only [List.length_take]
    omega
  simp only [fetch_blkparse_record]
  rw [if_pos hl]

/-- C1, witness for the amended theorem at a concrete truncated stream. -/
theorem c1_amended_witness :
    fetch_blkparse_record [0, 0, 0, 0] = FetchResult.none :=
  c1_amended [0, 0, 0, 0] (by decide)

/-- C2: with the process table empty, a PROCESS payload `b"bash\x00extra"`
stores the name bytes of `"bash"` for pid 42, as the claim says; but the
NUL-free payload `b"bash"` stores `"bas"` — `find` returns `-1`, the code
treats that truthy value as a found offset and slices `pdu_data[0:-1]`,
dropping the final byte instead of keeping the whole payload. -/
theorem c2_code_eval :
    add_program (fun _ => Option.none) 42
        [98, 97, 115, 104, 0, 101, 120, 116, 114, 97] 42
      = some [98, 97, 115, 104] ∧
    add_program (fun _ => Option.none) 42 [98, 97, 115, 104] 42
      = some [98, 97, 115] ∧
    [98, 97, 115] ≠ [98, 97, 115, 104] := by
  refine ⟨rfl, rfl, by decide⟩

/-- C3, counterexample: two action values agreeing on `action & 0x7f` but
differing in bit 8 classify differently — `0x04000000` (NOTIFY, subtype
code 0) succeeds as notify subtype PROCESS while `0x04000100` fails the
lookup, because the code masks the subtype with `0xff7f`, not `0x7f`. -/
theorem c3_counterexample :
    (0x04000100 : Nat) &&& 0x0000007F = (0x04000000 : Nat) &&& 0x0000007F ∧
    classify 0x04000000 = .ok (0x04000000, .notify 0, 0) ∧
    classify 0x04000100 = .error (.badNotify 0x100) := by
  refine ⟨by decide, rfl, rfl⟩

/-- C3, amended: the subtype code is extracted as `action & 0x0000ff7f`:
bit 7 is excluded, but bits 8–15 do take part in the lookup; any two
actions with equal category bits and equal values under the `0xff7f` mask
produce the same category and subtype outcome (success or failure). -/
theorem c3_amended (v w : Nat)
    (hcat : v &&& 0xffff0000 = w &&& 0xffff0000)
    (hsub : v &&& 0x0000ff7f = w &&& 0x0000ff7f) :
    Except.map (fun x => (x.1, x.2.1)) (classify v)
      = Except.map (fun x => (x.1, x.2.1)) (classify w) := by
  simp only [classify, hcat, hsub]
  cases lookup_subtype (w &&& 0xffff0000) (w &&& 0x0000ff7f) <;> rfl

/-- C3, witness for the amended theorem: bit 7 alone never changes the
category/subtype outcome. -/
theorem c3_amended_witness :
    Except.map (fun x => (x.1, x.2.1)) (classify 0x04000000)
      = Except.map (fun x => (x.1, x.2.1)) (classify 0x04000080) :=
  c3_amended 0x04000000 0x04000080 (by decide) (by decide)

/-- C4, counterexample: `0x04010000` has the NOTIFY category bit set
together with READ, yet its subtype is looked up in the ordinary-action
vocabulary (yielding `_TraceAction.NONE`), because the code compares the
category for equality with NOTIFY instead of testing membership. -/
theorem c4_counterexample :
    (0x04010000 : Nat) &&& NOTIFY ≠ 0 ∧
    classify 0x04010000 = .ok (0x04010000, .ordinary 0, 0) := by
  refine ⟨by decide, rfl⟩

/-- C4, amended: the notify vocabulary is used only when the category bits
equal NOTIFY exactly (NOTIFY alone); when NOTIFY is combined with any other
category flag, or absent, the ordinary-action vocabulary is used. -/
theorem c4_amended (v : Nat) :
    (v &&& 0xffff0000 = NOTIFY →
      (∃ c g, classify v = .ok (NOTIFY, .notify c, g)) ∨
      (∃ c, classify v = .error (.badNotify c))) ∧
    (v &&& 0xffff0000 ≠ NOTIFY →
      (∃ t c g, classify v = .ok (t, .ordinary c, g)) ∨
      (∃ c, classify v = .error (.badAction c))) := by
  constructor
  · intro h
    by_cases hm : (v &&& 0x0000ff7f) ∈ traceNotifyCodes
    · exact Or.inl ⟨v &&& 0x0000ff7f, v &&& 0x00000080,
        by simp [classify, lookup_subtype, h, hm, Except.map]⟩
    · exact Or.inr ⟨v &&& 0x0000ff7f,
        by simp [classify, lookup_subtype, h, hm, Except.map]⟩
  · intro h
    by_cases hm : (v &&& 0x0000ff7f) ∈ traceActionCodes
    · exact Or.inl ⟨v &&& 0xffff0000, v &&& 0x0000ff7f, v &&& 0x00000080,
        by simp [classify, lookup_subtype, h, hm, Except.map]⟩
    · exact Or.inr ⟨v &&& 0x0000ff7f,
        by simp [classify, lookup_subtype, h, hm, Except.map]⟩

/-- C4, witness for the amended theorem: NOTIFY alone uses the notify
vocabulary; NOTIFY combined with READ uses the ordinary vocabulary. -/
theorem c4_amended_witness :
    ((∃ c g, classify 0x04000000 = .ok (NOTIFY, .notify c, g)) ∨
      (∃ c, classify 0x04000000 = .error (.badNotify c))) ∧
    ((∃ t c g, classify 0x04010000 = .ok (t, .ordinary c, g)) ∨
      (∃ c, classify 0x04010000 = .error (.badAction c))) :=
  ⟨(c4_amended 0x04000000).1 (by decide), (c4_amended 0x04010000).2 (by decide)⟩

/-- The 48-byte header used in concrete stream counterexamples: a valid
magic-and-version field `0x65617407` (little-endian bytes 7, 116, 97, 101),
all other fields zero except the final two bytes, the `pdu_len` field. -/
def headerBytes (pduLenBytes : List Nat) : List Nat :=
  [7, 116, 97, 101] ++ List.replicate 42 0 ++ pduLenBytes

/-- A stream whose header announces `pdu_len = 10` but whose payload is cut
off after 4 bytes. -/
def c5_input : List Nat := headerBytes [10, 0] ++ [1, 2, 3, 4]

/-- The record the code produces for `c5_input`. -/
def c5_record : BlkparseRecord :=
  { magic := 0x65617407, sequence := 0, time := 0, sector := 0, bytes := 0,
    action := 0, pid := 0, device := 0, cpu := 0, error := 0,
    pdu_len := 10, pdu_data := some [1, 2, 3, 4] }

/-- C5, counterexample: a header claiming `pdu_len = 10` followed by only
4 bytes before end-of-input is returned as a normal record with the
silently short payload `[1, 2, 3, 4]` — there is no truncation error and
the returned record violates `payload length = pdu_len`. -/
theorem c5_counterexample :
    fetch_blkparse_record c5_input = FetchResult.ok c5_record ∧
    c5_record.pdu_len = 10 ∧
    c5_record.pdu_data = some [1, 2, 3, 4] ∧
    (4 : Nat) ≠ 10 := by
  refine ⟨rfl, rfl, rfl, by decide⟩

/-- C5, amended: when the header announces a positive `pdu_len` the reader
reads UP TO `pdu_len` payload bytes with no length check: every record
returned from a stream carries a payload of length
`min pdu_len (bytes remaining after the header)`. -/
theorem c5_amended (s : List Nat) (r : BlkparseRecord)
    (h : fetch_blkparse_record s = FetchResult.ok r) (hp : 0 < r.pdu_len) :
    ∃ d, r.pdu_data = some d ∧
      d.length = min r.pdu_len.toNat (s.length - 48) := by
  obtain ⟨hlen, hdata, -, -⟩ := fetch_ok_inv s r h
  rw [hlen] at hp
  rw [hdata, if_pos hp]
  refine ⟨_, rfl, ?_⟩
  rw [hlen]
  simp [List.length_take, List.length_drop]

/-- C5, witness for the amended theorem at the concrete truncated stream. -/
theorem c5_amended_witness :
    ∃ d, c5_record.pdu_data = some d ∧
      d.length = min c5_record.pdu_len.toNat (c5_input.length - 48) :=
  c5_amended c5_input c5_record rfl (by decide)

/-- The all-zero header fields with a valid magic, as a `Header` value. -/
def c6_header : Header :=
  { magic := 0x65617407, sequence := 0, time := 0, sector := 0, bytes := 0,
    action := 0, pid := 0, device := 0, cpu := 0, error := 0, pdu_len := 0 }

/-- The record built from `c6_header` with no payload. -/
def c6_record : BlkparseRecord :=
  { magic := 0x65617407, sequence := 0, time := 0, sector := 0, bytes := 0,
    action := 0, pid := 0, device := 0, cpu := 0, error := 0,
    pdu_len := 0, pdu_data := none }

/-- C6: `verify_trace` succeeds (returning `True`) exactly when
`magic & 0xffffff00 = 0x65617400` and `magic & 0xff = 7`; a mismatch in the
upper 24 bits fails with the observed and expected magic, a good magic with
any other low byte fails with the observed and expected version, and every
record that comes out of construction has passed `verify_trace`. -/
theorem c6_verify_trace (m : Int) (u : Header) (pdu : Option (List Nat)) :
    (verify_trace m = .ok true ↔
      (pyAnd m 0xffffff00 = 0x65617400 ∧ pyAnd m 0x000000ff = 7)) ∧
    (pyAnd m 0xffffff00 ≠ 0x65617400 →
      verify_trace m = .error (.badMagic (pyAnd m 0xffffff00) 0x65617400)) ∧
    (pyAnd m 0xffffff00 = 0x65617400 → pyAnd m 0x000000ff ≠ 7 →
      verify_trace m = .error (.badVersion (pyAnd m 0x000000ff) 7)) ∧
    (∀ r, mkBlkparseRecord u pdu = .ok r → verify_trace r.magic = .ok true) := by
  refine ⟨?_, ?_, ?_, ?_⟩
  · constructor
    · intro h
      simp only [verify_trace] at h
      split_ifs at h with h1 h2
      exact ⟨not_not.mp h1, not_not.mp h2⟩
    · intro ⟨h1, h2⟩
      simp [verify_trace, h1, h2]
  · intro h1
    simp [verify_trace, h1]
  · intro h1 h2
    simp [verify_trace, h1, h2]
  · intro r h
    unfold mkBlkparseRecord at h
    cases hv : verify_trace u.magic with
    | error e => rw [hv] at h; simp at h
    | ok b =>
        rw [hv] at h
        have hb := verify_trace_ok _ _ hv
        subst hb
        have hr : r.magic = u.magic := by
          have := (Except.ok.injEq _ _ ).mp h.symm
          rw [this]
        rw [hr]
        exact hv

/-- C6, witness: a good magic passes, a zero magic fails on the upper bits,
a good magic with version byte 0 fails on the version, and the record built
from `c6_header` passed verification. -/
theorem c6_verify_trace_witness :
    verify_trace 0x65617407 = .ok true ∧
    verify_trace 0 = .error (.badMagic 0 0x65617400) ∧
    verify_trace 0x65617400 = .error (.badVersion 0 7) ∧
    verify_trace c6_record.magic = .ok true :=
  ⟨(c6_verify_trace 0x65617407 c6_header none).1.mpr (by decide),
   (c6_verify_trace 0 c6_header none).2.1 (by decide),
   (c6_verify_trace 0x65617400 c6_header none).2.2.1 (by decide) (by decide),
   (c6_verify_trace 0 c6_header none).2.2.2 c6_record rfl⟩

/-- C7: the cgroup field is `action & 0x80` (so, viewed as a boolean, it is
set exactly when bit 7 is), and bit 7 is orthogonal to the rest of the
classification: setting it leaves the category and subtype (and lookup
success or failure) unchanged and only turns the cgroup field on; the
QUEUE-category-plus-QUEUE-subtype value classifies to category QUEUE,
subtype QUEUE, cgroup off, and the same value with bit `0x80` set
classifies identically except the cgroup field. -/
theorem c7_cgroup (v : Nat) :
    classify (v ||| 0x80) =
      Except.map (fun x => (x.1, x.2.1, 0x80)) (classify v) ∧
    (∀ tc sub cg, classify v = .ok (tc, sub, cg) →
      (cg ≠ 0 ↔ v &&& 0x00000080 ≠ 0)) ∧
    classify 0x00100001 = .ok (0x00100000, .ordinary 1, 0) ∧
    classify 0x00100081 = .ok (0x00100000, .ordinary 1, 0x80) := by
  refine ⟨?_, ?_, rfl, rfl⟩
  · have h1 : (v ||| 0x80) &&& 0xffff0000 = v &&& 0xffff0000 :=
      or_and_of_and_eq_zero v 0x80 0xffff0000 (by decide)
    have h2 : (v ||| 0x80) &&& 0x0000ff7f = v &&& 0x0000ff7f :=
      or_and_of_and_eq_zero v 0x80 0x0000ff7f (by decide)
    have h3 : (v ||| 0x80) &&& 0x00000080 = 0x80 := or_and_self_right v 0x80
    simp only [classify, h1, h2, h3]
    cases lookup_subtype (v &&& 0xffff0000) (v &&& 0x0000ff7f) <;> rfl
  · intro tc sub cg h
    have hcg : cg = v &&& 0x00000080 := by
      simp only [classify] at h
      cases hls : lookup_subtype (v &&& 0xffff0000) (v &&& 0x0000ff7f) with
      | error e => rw [hls] at h; simp [Except.map] at h
      | ok s =>
          rw [hls] at h
          simp only [Except.map, Except.ok.injEq, Prod.mk.injEq] at h
          exact h.2.2.symm
    rw [hcg]

/-- C7, witness: the orthogonality and the boolean reading of the cgroup
field, applied at the QUEUE action value. -/
theorem c7_cgroup_witness :
    classify (0x00100001 ||| 0x80) =
      Except.map (fun x => (x.1, x.2.1, 0x80)) (classify 0x00100001) ∧
    ((0 : Nat) ≠ 0 ↔ (0x00100001 : Nat) &&& 0x00000080 ≠ 0) :=
  ⟨(c7_cgroup 0x00100001).1,
   (c7_cgroup 0x00100001).2.1 0x00100000 (.ordinary 1) 0 rfl⟩

/-- C8: for every record — its `time` ranging over all integers, negative
ones included — `as_timepair` returns a pair `(seconds, nanoseconds)` with
`seconds * 1_000_000_000 + nanoseconds = time` and
`0 ≤ nanoseconds < 1_000_000_000`, because Python `divmod` is floor
division with the matching remainder. -/
theorem c8_as_timepair (r : BlkparseRecord) :
    (as_timepair r).1 * 1000000000 + (as_timepair r).2 = r.time ∧
    0 ≤ (as_timepair r).2 ∧ (as_timepair r).2 < 1000000000 := by
  refine ⟨?_, Int.fmod_nonneg' r.time (by decide),
    Int.fmod_lt_of_pos r.time (by decide)⟩
  have h := Int.fdiv_add_fmod r.time 1000000000
  simp only [as_timepair]
  rw [Int.mul_comm] at h
  exact h

/-- C9: for the modelled TIMESTAMP notify handler, a `pdu_len` other than 8
fails with `MalformedPayloadError`; on `pdu_len = 8` the anchor start is
`divmod(time, 1_000_000_000)` and the absolute pair is the payload parsed
as two signed 32-bit integers with the negative-nanoseconds normalization;
in particular the payload encoding `(5, -200)` normalizes to
`(4, 999999800)`. -/
theorem c9_handle_timestamp (a : TimestampAnchor) (time pdu_len : Int)
    (payload : List Nat) :
    (pdu_len ≠ 8 →
      handle_timestamp a time pdu_len payload
        = .error (.malformedPayload pdu_len)) ∧
    (pdu_len = 8 →
      ∃ a2, handle_timestamp a time pdu_len payload = .ok a2 ∧
        a2.start_timestamp
          = (Int.fdiv time 1000000000, Int.fmod time 1000000000) ∧
        a2.abs_timestamp
          = (let s := toSigned 32 (sliceLE payload 0 4)
             let n := toSigned 32 (sliceLE payload 4 4)
             if n < 0 then (s - 1, n + 1000000000) else (s, n))) ∧
    handle_timestamp a time 8 [5, 0, 0, 0, 56, 255, 255, 255]
      = .ok { a with
          start_timestamp
            := (Int.fdiv time 1000000000, Int.fmod time 1000000000)
          abs_timestamp := (4, 999999800) } := by
  refine ⟨?_, ?_, ?_⟩
  · intro h
    simp [handle_timestamp, h]
  · intro h
    subst h
    exact ⟨_, rfl, rfl, rfl⟩
  · have h5 : toSigned 32 (sliceLE [5, 0, 0, 0, 56, 255, 255, 255] 0 4)
        = 5 := by decide
    have hn : toSigned 32 (sliceLE [5, 0, 0, 0, 56, 255, 255, 255] 4 4)
        = -200 := by decide
    simp [handle_timestamp, h5, hn]

/-- C9, witness: the handler at a concrete anchor, time, and payload. -/
theorem c9_handle_timestamp_witness :
    handle_timestamp initAnchor 7000000123 4 []
      = .error (.malformedPayload 4) ∧
    (∃ a2, handle_timestamp initAnchor 7000000123 8
          [5, 0, 0, 0, 56, 255, 255, 255] = .ok a2 ∧
      a2.start_timestamp
        = (Int.fdiv 7000000123 1000000000, Int.fmod 7000000123 1000000000) ∧
      a2.abs_timestamp
        = (let s := toSigned 32 (sliceLE [5, 0, 0, 0, 56, 255, 255, 255] 0 4)
           let n := toSigned 32 (sliceLE [5, 0, 0, 0, 56, 255, 255, 255] 4 4)
           if n < 0 then (s - 1, n + 1000000000) else (s, n))) :=
  ⟨(c9_handle_timestamp initAnchor 7000000123 4 []).1 (by decide),
   (c9_handle_timestamp initAnchor 7000000123 8
      [5, 0, 0, 0, 56, 255, 255, 255]).2.1 rfl⟩

/-- A 48-byte stream: a valid header with `pdu_len = 0` and nothing after. -/
def c10_input : List Nat := headerBytes [0, 0]

/-- C10: a returned record carries no payload (`pdu_data = None`, not an
empty byte sequence) exactly when its header field `pdu_len` is not
positive: the payload read is attempted only when `pdu_len > 0`. -/
theorem c10_pdu_none (s : List Nat) (r : BlkparseRecord)
    (h : fetch_blkparse_record s = FetchResult.ok r) :
    (r.pdu_data = Option.none ↔ r.pdu_len ≤ 0) := by
  obtain ⟨hlen, hdata, -, -⟩ := fetch_ok_inv s r h
  rw [hdata, hlen]
  by_cases hp : 0 < (unpack48 (s.take 48)).pdu_len
  · rw [if_pos hp]
    simp
    omega
  · rw [if_neg hp]
    simp
    omega

/-- C10, witness: the record fetched from a header announcing `pdu_len = 0`
has `pdu_data = None`. -/
theorem c10_pdu_none_witness :
    c6_record.pdu_data = Option.none ↔ c6_record.pdu_len ≤ 0 :=
  c10_pdu_none c10_input c6_record rfl

end BlktraceToInflux
